import Mathlib

/-!
Shallow embedding of the senireligiuns-api express backend (src/index.js)
together with its prisma schema (src/prisma/schema.prisma).

Pure data is embedded directly; each express route handler becomes a pure
function from its inputs (environment, clock sample, database contents,
route/body/file parameters) to an `HResult`: either a sent HTTP response
together with the new database contents and the list of blob-store calls
performed, or `crash` for an unhandled thrown error (handlers lacking a
try/catch), also with the database contents and blob calls at the point of
the throw.

External services are modelled at the granularity the handlers observe:
  - prisma tables are lists of rows; `findUnique` is first-match lookup;
    `update`/`delete` on a missing id throw (P2025), which is modelled by
    the handlers that rely on it;
  - the supabase storage client succeeds on its network calls; uploads are
    recorded as `BlobEvent.upload key` and removals as
    `BlobEvent.deleteCall url` (the argument `deleteFromSupabase` is called
    with); `getPublicUrl` yields the fixed public bucket URL base followed
    by the percent-encoded storage key;
  - `decodeURIComponent` is `percentDecode` (`none` models the URIError
    throw on a malformed sequence);
  - jsonwebtoken `sign`/`verify` act on an abstract `Token` carrying the
    signing key and payload; `verify` checks the key and the `exp` claim
    against the clock (seconds), as the library does;
  - bcrypt is an abstract deterministic hash; `compare` succeeds exactly
    when the stored hash is the hash of the supplied password.
-/

/-! ## HTTP response and effect model -/

/-- JSON bodies the handlers send: a data payload (`res.json(x)`), an
`{error}` object, an `{error, details}` object, or a `{message}` object. -/
inductive Body (α : Type) where
  | data (a : α)
  | err (error : String)
  | errDetails (error : String) (details : String)
  | msg (message : String)
deriving DecidableEq

/-- An HTTP response: status code and optional JSON body
(`res.status(204).send()` has no body). -/
structure Response (α : Type) where
  status : Nat
  body : Option (Body α)
deriving DecidableEq

/-- Calls made to the supabase storage client: an upload of a storage key,
or an invocation of `deleteFromSupabase` with a file URL. -/
inductive BlobEvent where
  | upload (key : String)
  | deleteCall (url : String)
deriving DecidableEq

/-- Outcome of running a route handler: a sent response plus the resulting
database contents and blob-store calls, or an unhandled thrown error
(no response sent) for handlers without a try/catch. -/
inductive HResult (σ α : Type) where
  | ok (resp : Response α) (db : σ) (events : List BlobEvent)
  | crash (db : σ) (events : List BlobEvent)
deriving DecidableEq

/-- Shorthand for `res.json(x)` (status 200 with a data body). -/
def jsonOk {α : Type} (a : α) : Response α := ⟨200, some (.data a)⟩

/-- Shorthand for `res.status(s).json({error})`. -/
def jsonErr {α : Type} (status : Nat) (e : String) : Response α :=
  ⟨status, some (.err e)⟩

/-- Shorthand for `res.status(s).json({error, details})`. -/
def jsonErrDetails {α : Type} (status : Nat) (e d : String) : Response α :=
  ⟨status, some (.errDetails e d)⟩

/-- Shorthand for `res.status(204).send()`: no body. -/
def noContent {α : Type} : Response α := ⟨204, none⟩

/-- Status of an `HResult`, when a response was sent at all. -/
def HResult.statusOf {σ α : Type} : HResult σ α → Option Nat
  | .ok r _ _ => some r.status
  | .crash _ _ => none

/-! ## JavaScript value helpers -/

/-- JavaScript `a || b` where `a` is a nullable string (`none` = `null`)
and the result may again be null: `null` and `""` are falsy. -/
def jsOrOpt (a b : Option String) : Option String :=
  match a with
  | some s => if s = "" then b else some s
  | none => b

/-- JavaScript `a || b` where `a` is a nullable string and `b` a plain
string. -/
def jsOrStr (a : Option String) (b : String) : String :=
  match a with
  | some s => if s = "" then b else s
  | none => b

/-- A JavaScript `Date` constructed from a request-body string
(`new Date(s)`); only its provenance matters to the embedded handlers. -/
structure JsDate where
  raw : String
deriving DecidableEq

/-! ## Percent encoding and decoding (decodeURIComponent) -/

/-- Value of one hexadecimal digit character (0 on non-hex input; the
decoder only applies it to checked hex digits). -/
def hexVal (c : Char) : Nat :=
  if '0' ≤ c ∧ c ≤ '9' then c.toNat - 48
  else if 'a' ≤ c ∧ c ≤ 'f' then c.toNat - 87
  else if 'A' ≤ c ∧ c ≤ 'F' then c.toNat - 55
  else 0

/-- Recognizer for hexadecimal digit characters. -/
def isHexCh (c : Char) : Bool :=
  (decide ('0' ≤ c ∧ c ≤ '9')) || (decide ('a' ≤ c ∧ c ≤ 'f')) ||
    (decide ('A' ≤ c ∧ c ≤ 'F'))

/-- Hexadecimal digit character for a value below 16 (uppercase letters). -/
def hexDigitCh (n : Nat) : Char :=
  if n < 10 then Char.ofNat (48 + n) else Char.ofNat (55 + n)

/-- Model of JavaScript `decodeURIComponent` on character lists: `%XY`
with hex digits decodes to the corresponding byte; a lone or malformed `%`
sequence throws (modelled as `none`); other characters pass through. -/
def percentDecode : List Char → Option (List Char)
  | [] => some []
  | c :: rest =>
    if c = '%' then
      match rest with
      | h :: l :: rest2 =>
        if isHexCh h && isHexCh l then
          (percentDecode rest2).map (fun r => Char.ofNat (16 * hexVal h + hexVal l) :: r)
        else none
      | _ => none
    else (percentDecode rest).map (fun r => c :: r)

/-- Characters left unescaped by the URL encoder (the unreserved set). -/
def urlSafeChar (c : Char) : Bool :=
  c.isAlphanum || c = '-' || c = '.' || c = '_' || c = '~'

/-- Percent encoding of a single character (bytewise, for codepoints below
256; the round-trip theorems carry that bound as a hypothesis). -/
def percentEncodeChar (c : Char) : List Char :=
  if urlSafeChar c then [c]
  else ['%', hexDigitCh (c.toNat / 16 % 16), hexDigitCh (c.toNat % 16)]

/-- Percent encoding of a character list. -/
def percentEncode (l : List Char) : List Char :=
  (l.map percentEncodeChar).flatten

/-- JavaScript `s.replace(pat, "")` for a plain-string pattern: removes the
first (leftmost) occurrence of `pat`, if any. -/
def jsReplaceFirst (pat : List Char) : List Char → List Char
  | [] => []
  | c :: rest =>
    if pat.isPrefixOf (c :: rest) then (c :: rest).drop pat.length
    else c :: jsReplaceFirst pat rest

/-! ## Supabase storage adapter (src/index.js lines 19-62) -/

/-- Environment configuration read from process.env. -/
structure Env where
  supabaseUrl : String
deriving DecidableEq

/-- Fixed bucket name (line 24). -/
def BUCKET_NAME : String := "uploads"

/-- Public URL base of the bucket, as interpolated at line 52:
SUPABASE_URL + "/storage/v1/object/public/" + BUCKET_NAME + "/". -/
def bucketBaseUrl (env : Env) : String :=
  env.supabaseUrl ++ "/storage/v1/object/public/" ++ BUCKET_NAME ++ "/"

/-- A multer in-memory uploaded file. -/
structure UploadFile where
  originalname : String
  mimetype : String
  buffer : String
deriving DecidableEq

/-- Storage key chosen by `uploadToSupabase` (line 31):
current timestamp, "-", original filename. -/
def uniqueFilename (now : Nat) (file : UploadFile) : String :=
  toString now ++ "-" ++ file.originalname

/-- Public URL for a storage key, modelling the supabase client's
`getPublicUrl`: the bucket URL base followed by the percent-encoded key. -/
def getPublicUrl (env : Env) (path : String) : String :=
  bucketBaseUrl env ++ String.mk (percentEncode path.toList)

/-- Model of `uploadToSupabase` (lines 30-46): stores the buffer under
`uniqueFilename` and returns the public URL (the store call succeeds). -/
def uploadToSupabase (env : Env) (now : Nat) (file : UploadFile) : String :=
  getPublicUrl env (uniqueFilename now file)

/-- Model of `deleteFromSupabase` (lines 49-62): URL-decode the argument,
strip the bucket URL base (JavaScript `replace` of the first occurrence)
to recover the storage key, and remove that object. Returns the removed
key; `none` models the URIError thrown by `decodeURIComponent` on a
malformed sequence. -/
def deleteFromSupabase (env : Env) (fileUrl : String) : Option String :=
  (percentDecode fileUrl.toList).map
    (fun d => String.mk (jsReplaceFirst (bucketBaseUrl env).toList d))

/-! ## Authentication (src/index.js lines 64-114) -/

/-- Administrator row (prisma model Admin). -/
structure Admin where
  id : Nat
  username : String
  password : String
deriving DecidableEq

/-- Deterministic model of bcrypt hashing. -/
def bcryptHashOf (p : String) : String := "$2a$10$" ++ p

/-- Model of `bcrypt.compare`: succeeds exactly when the stored hash is the
hash of the supplied password. -/
def bcryptCompare (password hash : String) : Bool :=
  hash == bcryptHashOf password

/-- Claims carried by a signed token. Times are in seconds, as in JWT. -/
structure JwtPayload where
  id : Nat
  iat : Nat
  exp : Nat
deriving DecidableEq

/-- Abstract bearer token: a payload signed with a key, or a malformed
token string. -/
inductive Token where
  | signed (key : String) (payload : JwtPayload)
  | malformed (raw : String)
deriving DecidableEq

/-- Model of `jwt.sign({id}, SECRET_KEY, {expiresIn: "1h"})` at clock time
`nowMs` (milliseconds): `iat` is the current time in seconds, `exp` one
hour later. -/
def jwtSign (key : String) (adminId : Nat) (nowMs : Nat) : Token :=
  .signed key ⟨adminId, nowMs / 1000, nowMs / 1000 + 3600⟩

/-- Failure modes of `jwt.verify`. -/
inductive JwtError where
  | invalid
  | expired
deriving DecidableEq

/-- Model of `jwt.verify(token, key)` at clock time `nowMs`: rejects a
malformed token or wrong signing key as invalid, and throws
TokenExpiredError when the current time in seconds has reached `exp`. -/
def jwtVerify (key : String) (t : Token) (nowMs : Nat) : Except JwtError JwtPayload :=
  match t with
  | .malformed _ => .error .invalid
  | .signed k p =>
    if k ≠ key then .error .invalid
    else if p.exp ≤ nowMs / 1000 then .error .expired
    else .ok p

/-- Shape of the Authorization header as the middleware reads it:
`req.headers.authorization?.split(" ")[1]` yields no token when the header
is missing or has no second space-separated part, otherwise the bearer
token. -/
inductive AuthHeader where
  | missing
  | noToken
  | bearer (t : Token)
deriving DecidableEq

/-- An error response sent by the middleware (status plus error message). -/
structure AuthErr where
  status : Nat
  error : String
deriving DecidableEq

/-- Model of `authenticateToken` (lines 64-84). `tVerify` is the clock
sample `jwt.verify` reads internally; `tCheck` the sample the explicit
`decoded.exp * 1000 < Date.now()` comparison reads (in the source these
are two consecutive reads of the same clock). `.ok` means the middleware
called `next()` with `req.user` set to the decoded payload. -/
def authenticateToken (key : String) (h : AuthHeader) (tVerify tCheck : Nat) :
    Except AuthErr JwtPayload :=
  match h with
  | .missing => .error ⟨401, "Access denied"⟩
  | .noToken => .error ⟨401, "Access denied"⟩
  | .bearer t =>
    match jwtVerify key t tVerify with
    | .error _ => .error ⟨403, "Invalid token"⟩
    | .ok decoded =>
      if decoded.exp * 1000 < tCheck then
        .error ⟨403, "Token expired, please log in again"⟩
      else .ok decoded

/-- Model of `POST /admin/login` (lines 91-114): look up the admin by
username, 401 on a miss; compare the password hash, 401 on mismatch;
otherwise sign and return a one-hour token. -/
def loginHandler (admins : List Admin) (key : String) (nowMs : Nat)
    (username password : String) : Response Token :=
  match admins.find? (fun a => a.username == username) with
  | none => jsonErr 401 "Invalid username or password"
  | some admin =>
    if bcryptCompare password admin.password then jsonOk (jwtSign key admin.id nowMs)
    else jsonErr 401 "Invalid username or password"

/-! ## Entity rows (src/prisma/schema.prisma) -/

/-- News row. -/
structure News where
  id : Nat
  title : String
  description : String
  image : Option String
  publishedAt : JsDate
deriving DecidableEq

/-- Hero row (image is non-nullable in the schema). -/
structure Hero where
  id : Nat
  welcomeMessage : String
  description : String
  image : String
deriving DecidableEq

/-- Extracurricular row. -/
structure Extracurricular where
  id : Nat
  name : String
  description : String
  image : Option String
deriving DecidableEq

/-- Kalender row (the media field is named `file` and non-nullable). -/
structure Kalender where
  id : Nat
  title : String
  file : String
deriving DecidableEq

/-- Alumni row. -/
structure Alumni where
  id : Nat
  title : String
  image : Option String
deriving DecidableEq

/-- Galeri row (image is non-nullable in the schema). -/
structure Galeri where
  id : Nat
  title : String
  image : String
deriving DecidableEq

/-- Sarana row. -/
structure Sarana where
  id : Nat
  name : String
  description : String
  image : Option String
deriving DecidableEq

/-- HeadmasterMessage row (image is non-nullable in the schema). -/
structure HeadmasterMessage where
  id : Nat
  message : String
  description : String
  image : String
  headmasterName : String
deriving DecidableEq

/-- Sejarah row. -/
structure Sejarah where
  id : Nat
  period : String
  text : String
  image : Option String
deriving DecidableEq

/-- VisiMisi row. -/
structure VisiMisi where
  id : Nat
  visi : String
  misi : List String
deriving DecidableEq

/-- Contact row. -/
structure Contact where
  id : Nat
  name : String
  email : String
  phone : String
  message : String
  createdAt : JsDate
deriving DecidableEq

/-! ## Prisma operations on list-modelled tables -/

/-- Model of `findUnique({where: {id}})`: first row with the given id. -/
def findUnique {ρ : Type} (db : List ρ) (getId : ρ → Nat) (id : Nat) : Option ρ :=
  db.find? (fun r => getId r == id)

/-- Model of a successful `update({where: {id}, data})`: replace the row
with the given id (the handlers call it only after the row was found). -/
def updateById {ρ : Type} (db : List ρ) (getId : ρ → Nat) (id : Nat) (newRow : ρ) : List ρ :=
  db.map (fun r => if getId r == id then newRow else r)

/-- Model of a successful `delete({where: {id}})`: remove the row with the
given id. -/
def deleteById {ρ : Type} (db : List ρ) (getId : ρ → Nat) (id : Nat) : List ρ :=
  db.filter (fun r => !(getId r == id))

/-! ## Prisma `data:` blocks of the update handlers -/

/-- Data block of the news update (lines 189-197). -/
def newsWith (ex : News) (title description publishedAt : String)
    (image : Option String) : News :=
  { ex with title := title, description := description, image := image, publishedAt := ⟨publishedAt⟩ }

/-- Data block of the hero update (lines 272-279). -/
def heroWith (ex : Hero) (welcomeMessage description : String) (image : String) : Hero :=
  { ex with welcomeMessage := welcomeMessage, description := description, image := image }

/-- Data block of the extracurricular update (lines 355-362). -/
def extracurricularWith (ex : Extracurricular) (name description : String)
    (image : Option String) : Extracurricular :=
  { ex with name := name, description := description, image := image }

/-- Data block of the kalender update (lines 435-441). -/
def kalenderWith (ex : Kalender) (title file : String) : Kalender :=
  { ex with title := title, file := file }

/-- Data block of the alumni update (lines 509-515). -/
def alumniWith (ex : Alumni) (title : String) (image : Option String) : Alumni :=
  { ex with title := title, image := image }

/-- Data block of the galeri update (lines 610-616). -/
def galeriWith (ex : Galeri) (title image : String) : Galeri :=
  { ex with title := title, image := image }

/-- Data block of the sarana update (lines 711-718). -/
def saranaWith (ex : Sarana) (name description : String) (image : Option String) : Sarana :=
  { ex with name := name, description := description, image := image }

/-- Data block of the headmaster-message update (lines 785-793). -/
def headmasterMessageWith (ex : HeadmasterMessage) (message description headmasterName : String)
    (image : String) : HeadmasterMessage :=
  { ex with message := message, description := description, image := image, headmasterName := headmasterName }

/-- Data block of the sejarah update (lines 838-841). -/
def sejarahWith (ex : Sejarah) (period text : String) (image : Option String) : Sejarah :=
  { ex with period := period, text := text, image := image }

/-- Data block of the visi-misi update (lines 875-881). -/
def visiMisiWith (ex : VisiMisi) (visi : String) (misi : List String) : VisiMisi :=
  { ex with visi := visi, misi := misi }

/-! ## Update handlers -/

/-- Model of `PUT /api/news/:id` (lines 163-205). -/
def newsUpdate (env : Env) (now : Nat) (db : List News) (id : Nat)
    (title description publishedAt : String) (file : Option UploadFile) :
    HResult (List News) News :=
  match findUnique db News.id id with
  | none => .ok (jsonErr 404 "News not found") db []
  | some existingNews =>
    match file with
    | none =>
      let updated := newsWith existingNews title description publishedAt
        (jsOrOpt none existingNews.image)
      .ok (jsonOk updated) (updateById db News.id id updated) []
    | some f =>
      let newImage := uploadToSupabase env now f
      match existingNews.image with
      | none =>
        let updated := newsWith existingNews title description publishedAt
          (jsOrOpt (some newImage) none)
        .ok (jsonOk updated) (updateById db News.id id updated)
          [.upload (uniqueFilename now f)]
      | some old =>
        match deleteFromSupabase env old with
        | none =>
          .ok (jsonErrDetails 500 "Failed to update news" "URI malformed") db
            [.upload (uniqueFilename now f), .deleteCall old]
        | some _ =>
          let updated := newsWith existingNews title description publishedAt
            (jsOrOpt (some newImage) (some old))
          .ok (jsonOk updated) (updateById db News.id id updated)
            [.upload (uniqueFilename now f), .deleteCall old]

/-- Model of `PUT /api/hero/:id` (lines 246-288). -/
def heroUpdate (env : Env) (now : Nat) (db : List Hero) (id : Nat)
    (welcomeMessage description : String) (file : Option UploadFile) :
    HResult (List Hero) Hero :=
  match findUnique db Hero.id id with
  | none => .ok (jsonErr 404 "Hero not found") db []
  | some existingHero =>
    match file with
    | none =>
      let updated := heroWith existingHero welcomeMessage description
        (jsOrStr none existingHero.image)
      .ok (jsonOk updated) (updateById db Hero.id id updated) []
    | some f =>
      let newImage := uploadToSupabase env now f
      if existingHero.image = "" then
        let updated := heroWith existingHero welcomeMessage description
          (jsOrStr (some newImage) existingHero.image)
        .ok (jsonOk updated) (updateById db Hero.id id updated)
          [.upload (uniqueFilename now f)]
      else
        match deleteFromSupabase env existingHero.image with
        | none =>
          .ok (jsonErrDetails 500 "Failed to update hero" "URI malformed") db
            [.upload (uniqueFilename now f), .deleteCall existingHero.image]
        | some _ =>
          let updated := heroWith existingHero welcomeMessage description
            (jsOrStr (some newImage) existingHero.image)
          .ok (jsonOk updated) (updateById db Hero.id id updated)
            [.upload (uniqueFilename now f), .deleteCall existingHero.image]

/-- Model of `PUT /api/extracurriculars/:id` (lines 329-371). -/
def extracurricularUpdate (env : Env) (now : Nat) (db : List Extracurricular) (id : Nat)
    (name description : String) (file : Option UploadFile) :
    HResult (List Extracurricular) Extracurricular :=
  match findUnique db Extracurricular.id id with
  | none => .ok (jsonErr 404 "Extracurricular not found") db []
  | some existing =>
    match file with
    | none =>
      let updated := extracurricularWith existing name description
        (jsOrOpt none existing.image)
      .ok (jsonOk updated) (updateById db Extracurricular.id id updated) []
    | some f =>
      let newImage := uploadToSupabase env now f
      match existing.image with
      | none =>
        let updated := extracurricularWith existing name description
          (jsOrOpt (some newImage) none)
        .ok (jsonOk updated) (updateById db Extracurricular.id id updated)
          [.upload (uniqueFilename now f)]
      | some old =>
        match deleteFromSupabase env old with
        | none =>
          .ok (jsonErrDetails 500 "Failed to update extracurricular" "URI malformed") db
            [.upload (uniqueFilename now f), .deleteCall old]
        | some _ =>
          let updated := extracurricularWith existing name description
            (jsOrOpt (some newImage) (some old))
          .ok (jsonOk updated) (updateById db Extracurricular.id id updated)
            [.upload (uniqueFilename now f), .deleteCall old]

/-- Model of `PUT /api/kalender/:id` (lines 413-448); `newFile` starts as
the existing file and is only replaced when a new file is attached. -/
def kalenderUpdate (env : Env) (now : Nat) (db : List Kalender) (id : Nat)
    (title : String) (file : Option UploadFile) :
    HResult (List Kalender) Kalender :=
  match findUnique db Kalender.id id with
  | none => .ok (jsonErr 404 "Kalender event not found") db []
  | some existingKalender =>
    match file with
    | none =>
      let updated := kalenderWith existingKalender title existingKalender.file
      .ok (jsonOk updated) (updateById db Kalender.id id updated) []
    | some f =>
      let newFile := uploadToSupabase env now f
      if existingKalender.file = "" then
        let updated := kalenderWith existingKalender title newFile
        .ok (jsonOk updated) (updateById db Kalender.id id updated)
          [.upload (uniqueFilename now f)]
      else
        match deleteFromSupabase env existingKalender.file with
        | none =>
          .ok (jsonErrDetails 500 "Failed to update kalender" "URI malformed") db
            [.upload (uniqueFilename now f), .deleteCall existingKalender.file]
        | some _ =>
          let updated := kalenderWith existingKalender title newFile
          .ok (jsonOk updated) (updateById db Kalender.id id updated)
            [.upload (uniqueFilename now f), .deleteCall existingKalender.file]

/-- Model of `PUT /api/alumni/:id` (lines 486-521). -/
def alumniUpdate (env : Env) (now : Nat) (db : List Alumni) (id : Nat)
    (title : String) (file : Option UploadFile) :
    HResult (List Alumni) Alumni :=
  match findUnique db Alumni.id id with
  | none => .ok (jsonErr 404 "Alumni not found") db []
  | some existingAlumni =>
    match file with
    | none =>
      let updated := alumniWith existingAlumni title (jsOrOpt none existingAlumni.image)
      .ok (jsonOk updated) (updateById db Alumni.id id updated) []
    | some f =>
      let newImage := uploadToSupabase env now f
      match existingAlumni.image with
      | none =>
        let updated := alumniWith existingAlumni title (jsOrOpt (some newImage) none)
        .ok (jsonOk updated) (updateById db Alumni.id id updated)
          [.upload (uniqueFilename now f)]
      | some old =>
        match deleteFromSupabase env old with
        | none =>
          .ok (jsonErrDetails 500 "Failed to update alumni" "URI malformed") db
            [.upload (uniqueFilename now f), .deleteCall old]
        | some _ =>
          let updated := alumniWith existingAlumni title (jsOrOpt (some newImage) (some old))
          .ok (jsonOk updated) (updateById db Alumni.id id updated)
            [.upload (uniqueFilename now f), .deleteCall old]

/-- Model of `PUT /api/galeri/:id` (lines 589-625); `newImage` starts as
the existing image and is only replaced when a new file is attached. -/
def galeriUpdate (env : Env) (now : Nat) (db : List Galeri) (id : Nat)
    (title : String) (file : Option UploadFile) :
    HResult (List Galeri) Galeri :=
  match findUnique db Galeri.id id with
  | none => .ok (jsonErr 404 "Galeri not found") db []
  | some existingGaleri =>
    match file with
    | none =>
      let updated := galeriWith existingGaleri title existingGaleri.image
      .ok (jsonOk updated) (updateById db Galeri.id id updated) []
    | some f =>
      let newImage := uploadToSupabase env now f
      if existingGaleri.image = "" then
        let updated := galeriWith existingGaleri title newImage
        .ok (jsonOk updated) (updateById db Galeri.id id updated)
          [.upload (uniqueFilename now f)]
      else
        match deleteFromSupabase env existingGaleri.image with
        | none =>
          .ok (jsonErrDetails 500 "Failed to update galeri" "URI malformed") db
            [.upload (uniqueFilename now f), .deleteCall existingGaleri.image]
        | some _ =>
          let updated := galeriWith existingGaleri title newImage
          .ok (jsonOk updated) (updateById db Galeri.id id updated)
            [.upload (uniqueFilename now f), .deleteCall existingGaleri.image]

/-- Model of `PUT /api/sarana/:id` (lines 690-724). -/
def saranaUpdate (env : Env) (now : Nat) (db : List Sarana) (id : Nat)
    (name description : String) (file : Option UploadFile) :
    HResult (List Sarana) Sarana :=
  match findUnique db Sarana.id id with
  | none => .ok (jsonErr 404 "Sarana not found") db []
  | some existingSarana =>
    match file with
    | none =>
      let updated := saranaWith existingSarana name description
        (jsOrOpt none existingSarana.image)
      .ok (jsonOk updated) (updateById db Sarana.id id updated) []
    | some f =>
      let newImage := uploadToSupabase env now f
      match existingSarana.image with
      | none =>
        let updated := saranaWith existingSarana name description
          (jsOrOpt (some newImage) none)
        .ok (jsonOk updated) (updateById db Sarana.id id updated)
          [.upload (uniqueFilename now f)]
      | some old =>
        match deleteFromSupabase env old with
        | none =>
          .ok (jsonErrDetails 500 "Failed to update sarana" "URI malformed") db
            [.upload (uniqueFilename now f), .deleteCall old]
        | some _ =>
          let updated := saranaWith existingSarana name description
            (jsOrOpt (some newImage) (some old))
          .ok (jsonOk updated) (updateById db Sarana.id id updated)
            [.upload (uniqueFilename now f), .deleteCall old]

/-- Model of `PUT /api/headmaster-message/:id` (lines 759-800); note the
catch branch sends `{error}` without a details field (line 798). -/
def headmasterMessageUpdate (env : Env) (now : Nat) (db : List HeadmasterMessage) (id : Nat)
    (message description headmasterName : String) (file : Option UploadFile) :
    HResult (List HeadmasterMessage) HeadmasterMessage :=
  match findUnique db HeadmasterMessage.id id with
  | none => .ok (jsonErr 404 "Headmaster Message not found") db []
  | some existingMessage =>
    match file with
    | none =>
      let updated := headmasterMessageWith existingMessage message description headmasterName
        (jsOrStr none existingMessage.image)
      .ok (jsonOk updated) (updateById db HeadmasterMessage.id id updated) []
    | some f =>
      let newImage := uploadToSupabase env now f
      if existingMessage.image = "" then
        let updated := headmasterMessageWith existingMessage message description headmasterName
          (jsOrStr (some newImage) existingMessage.image)
        .ok (jsonOk updated) (updateById db HeadmasterMessage.id id updated)
          [.upload (uniqueFilename now f)]
      else
        match deleteFromSupabase env existingMessage.image with
        | none =>
          .ok (jsonErr 500 "Failed to update headmaster message") db
            [.upload (uniqueFilename now f), .deleteCall existingMessage.image]
        | some _ =>
          let updated := headmasterMessageWith existingMessage message description headmasterName
            (jsOrStr (some newImage) existingMessage.image)
          .ok (jsonOk updated) (updateById db HeadmasterMessage.id id updated)
            [.upload (uniqueFilename now f), .deleteCall existingMessage.image]

/-- Model of `PUT /api/sejarah/:id` (lines 822-843): no try/catch, so a
throw inside `deleteFromSupabase` is an unhandled rejection (`crash`). -/
def sejarahUpdate (env : Env) (now : Nat) (db : List Sejarah) (id : Nat)
    (period text : String) (file : Option UploadFile) :
    HResult (List Sejarah) Sejarah :=
  match findUnique db Sejarah.id id with
  | none => .ok (jsonErr 404 "Sejarah not found") db []
  | some existingSejarah =>
    match file with
    | none =>
      let updated := sejarahWith existingSejarah period text existingSejarah.image
      .ok (jsonOk updated) (updateById db Sejarah.id id updated) []
    | some f =>
      let imageUrl := uploadToSupabase env now f
      match existingSejarah.image with
      | none =>
        let updated := sejarahWith existingSejarah period text (some imageUrl)
        .ok (jsonOk updated) (updateById db Sejarah.id id updated)
          [.upload (uniqueFilename now f)]
      | some old =>
        match deleteFromSupabase env old with
        | none => .crash db [.upload (uniqueFilename now f), .deleteCall old]
        | some _ =>
          let updated := sejarahWith existingSejarah period text (some imageUrl)
          .ok (jsonOk updated) (updateById db Sejarah.id id updated)
            [.upload (uniqueFilename now f), .deleteCall old]

/-- Model of `PUT /api/visi-misi/:id` (lines 871-884): no prior fetch and
no try/catch; `prisma.visiMisi.update` on a missing id throws P2025 and
the rejection is unhandled (`crash`, no response sent). -/
def visiMisiUpdate (db : List VisiMisi) (id : Nat) (visi : String) (misi : List String) :
    HResult (List VisiMisi) VisiMisi :=
  match findUnique db VisiMisi.id id with
  | none => .crash db []
  | some existing =>
    let updated := visiMisiWith existing visi misi
    .ok (jsonOk updated) (updateById db VisiMisi.id id updated) []

/-! ## Delete handlers -/

/-- Model of `DELETE /api/news/:id` (lines 208-237). -/
def newsDelete (env : Env) (db : List News) (id : Nat) : HResult (List News) News :=
  match findUnique db News.id id with
  | none => .ok (jsonErr 404 "News not found") db []
  | some existingNews =>
    match existingNews.image with
    | none => .ok noContent (deleteById db News.id id) []
    | some old =>
      match deleteFromSupabase env old with
      | none =>
        .ok (jsonErrDetails 500 "Failed to delete news" "URI malformed") db [.deleteCall old]
      | some _ => .ok noContent (deleteById db News.id id) [.deleteCall old]

/-- Model of `DELETE /api/extracurriculars/:id` (lines 374-404). -/
def extracurricularDelete (env : Env) (db : List Extracurricular) (id : Nat) :
    HResult (List Extracurricular) Extracurricular :=
  match findUnique db Extracurricular.id id with
  | none => .ok (jsonErr 404 "Extracurricular not found") db []
  | some existing =>
    match existing.image with
    | none => .ok noContent (deleteById db Extracurricular.id id) []
    | some old =>
      match deleteFromSupabase env old with
      | none =>
        .ok (jsonErrDetails 500 "Failed to delete extracurricular" "URI malformed") db
          [.deleteCall old]
      | some _ => .ok noContent (deleteById db Extracurricular.id id) [.deleteCall old]

/-- Model of `DELETE /api/alumni/:id` (lines 524-549). -/
def alumniDelete (env : Env) (db : List Alumni) (id : Nat) : HResult (List Alumni) Alumni :=
  match findUnique db Alumni.id id with
  | none => .ok (jsonErr 404 "Alumni not found") db []
  | some existingAlumni =>
    match existingAlumni.image with
    | none => .ok noContent (deleteById db Alumni.id id) []
    | some old =>
      match deleteFromSupabase env old with
      | none =>
        .ok (jsonErrDetails 500 "Failed to delete alumni" "URI malformed") db [.deleteCall old]
      | some _ => .ok noContent (deleteById db Alumni.id id) [.deleteCall old]

/-- Model of `DELETE /api/galeri/:id` (lines 628-655). -/
def galeriDelete (env : Env) (db : List Galeri) (id : Nat) : HResult (List Galeri) Galeri :=
  match findUnique db Galeri.id id with
  | none => .ok (jsonErr 404 "Galeri not found") db []
  | some existingGaleri =>
    if existingGaleri.image = "" then .ok noContent (deleteById db Galeri.id id) []
    else
      match deleteFromSupabase env existingGaleri.image with
      | none =>
        .ok (jsonErrDetails 500 "Failed to delete galeri" "URI malformed") db
          [.deleteCall existingGaleri.image]
      | some _ => .ok noContent (deleteById db Galeri.id id) [.deleteCall existingGaleri.image]

/-- Model of `DELETE /api/sarana/:id` (lines 726-750). -/
def saranaDelete (env : Env) (db : List Sarana) (id : Nat) : HResult (List Sarana) Sarana :=
  match findUnique db Sarana.id id with
  | none => .ok (jsonErr 404 "Sarana not found") db []
  | some existingSarana =>
    match existingSarana.image with
    | none => .ok noContent (deleteById db Sarana.id id) []
    | some old =>
      match deleteFromSupabase env old with
      | none =>
        .ok (jsonErrDetails 500 "Failed to delete sarana" "URI malformed") db [.deleteCall old]
      | some _ => .ok noContent (deleteById db Sarana.id id) [.deleteCall old]

/-- Model of `DELETE /api/sejarah/:id` (lines 846-862): no try/catch, and
the success response is `res.json({message})` — status 200 with a body. -/
def sejarahDelete (env : Env) (db : List Sejarah) (id : Nat) : HResult (List Sejarah) Sejarah :=
  match findUnique db Sejarah.id id with
  | none => .ok (jsonErr 404 "Sejarah not found") db []
  | some existingSejarah =>
    match existingSejarah.image with
    | none =>
      .ok ⟨200, some (.msg "Slide sejarah berhasil dihapus")⟩ (deleteById db Sejarah.id id) []
    | some old =>
      match deleteFromSupabase env old with
      | none => .crash db [.deleteCall old]
      | some _ =>
        .ok ⟨200, some (.msg "Slide sejarah berhasil dihapus")⟩ (deleteById db Sejarah.id id)
          [.deleteCall old]

/-- Model of `DELETE /api/contacts/:id` (lines 918-931): no prior fetch;
`prisma.contact.delete` on a missing id throws P2025 and the catch sends
404; on success the deleted row is returned with status 200. -/
def contactsDelete (db : List Contact) (id : Nat) : HResult (List Contact) Contact :=
  match findUnique db Contact.id id with
  | none => .ok (jsonErr 404 "Contact not found or failed to delete") db []
  | some deletedContact =>
    .ok ⟨200, some (.data deletedContact)⟩ (deleteById db Contact.id id) []

/-! ## Get-by-id handlers -/

/-- Model of `GET /api/news/:id` (lines 128-134): `res.json` of the row or
of `null` when absent. -/
def newsGetById (db : List News) (id : Nat) : Response (Option News) :=
  jsonOk (findUnique db News.id id)

/-- Model of `GET /api/extracurriculars/:id` (lines 297-303). -/
def extracurricularGetById (db : List Extracurricular) (id : Nat) :
    Response (Option Extracurricular) :=
  jsonOk (findUnique db Extracurricular.id id)

/-- Model of `GET /api/alumni/:id` (lines 457-463). -/
def alumniGetById (db : List Alumni) (id : Nat) : Response (Option Alumni) :=
  jsonOk (findUnique db Alumni.id id)

/-- Model of `GET /api/galeri/:id` (lines 558-564). -/
def galeriGetById (db : List Galeri) (id : Nat) : Response (Option Galeri) :=
  jsonOk (findUnique db Galeri.id id)

/-- Model of `GET /api/sarana/:id` (lines 662-668). -/
def saranaGetById (db : List Sarana) (id : Nat) : Response (Option Sarana) :=
  jsonOk (findUnique db Sarana.id id)

/-! ## Helper predicates used in claim statements -/

/-- A nullable stored media value whose deletion would not throw: either
absent, or a URL `decodeURIComponent` accepts. -/
def mediaDeletable (env : Env) : Option String → Bool
  | none => true
  | some u => (deleteFromSupabase env u).isSome

/-- Blob calls the handlers make for a prior nullable media value when a
new file is attached: exactly one delete for the previous URL when it was
non-null, none otherwise. -/
def oldDeleteEvents : Option String → List BlobEvent
  | none => []
  | some old => [.deleteCall old]

/-- Counterpart of `mediaDeletable` for non-nullable (string) media
fields, whose falsy value is the empty string. -/
def strDeletable (env : Env) (u : String) : Bool :=
  (u == "") || (deleteFromSupabase env u).isSome

/-- Counterpart of `oldDeleteEvents` for non-nullable media fields. -/
def strDeleteEvents (u : String) : List BlobEvent :=
  if u = "" then [] else [.deleteCall u]

/-! ## Lemmas about the encoding layer -/

theorem isHexCh_hexDigitCh {n : Nat} (h : n < 16) : isHexCh (hexDigitCh n) = true := by
  interval_cases n <;> decide

theorem hexVal_hexDigitCh {n : Nat} (h : n < 16) : hexVal (hexDigitCh n) = n := by
  interval_cases n <;> decide

theorem urlSafeChar_ne_percent {c : Char} (h : urlSafeChar c = true) : c ≠ '%' := by
  intro he
  subst he
  exact absurd h (by decide)

theorem percentDecode_cons_safe {c : Char} (hc : c ≠ '%') (rest : List Char) :
    percentDecode (c :: rest) = (percentDecode rest).map (fun r => c :: r) := by
  rw [percentDecode.eq_def]
  simp [hc]

theorem percentDecode_escape (h l : Char) (rest : List Char)
    (hh : isHexCh h = true) (hl : isHexCh l = true) :
    percentDecode ('%' :: h :: l :: rest) =
      (percentDecode rest).map (fun r => Char.ofNat (16 * hexVal h + hexVal l) :: r) := by
  rw [percentDecode.eq_def]
  simp [hh, hl]

/-- Decoding an encoded list followed by any tail decodes the tail and
prepends the original list, provided every character fits in a byte. -/
theorem percentDecode_encode_append (l t : List Char) (hl : ∀ c ∈ l, c.toNat < 256) :
    percentDecode (percentEncode l ++ t) = (percentDecode t).map (fun r => l ++ r) := by
  induction l with
  | nil =>
    cases h : percentDecode t <;> simp [percentEncode, h]
  | cons c l ih =>
    have hc : c.toNat < 256 := hl c (List.mem_cons_self c l)
    have hl' : ∀ x ∈ l, x.toNat < 256 := fun x hx => hl x (List.mem_cons_of_mem c hx)
    have henc : percentEncode (c :: l) = percentEncodeChar c ++ percentEncode l := by
      simp [percentEncode]
    rw [henc, List.append_assoc]
    by_cases hs : urlSafeChar c
    · rw [percentEncodeChar, if_pos hs, List.singleton_append,
        percentDecode_cons_safe (urlSafeChar_ne_percent hs), ih hl']
      cases h : percentDecode t <;> simp [h]
    · rw [percentEncodeChar, if_neg hs]
      have hhi : c.toNat / 16 % 16 < 16 := Nat.mod_lt _ (by norm_num)
      have hlo : c.toNat % 16 < 16 := Nat.mod_lt _ (by norm_num)
      have hdiv : c.toNat / 16 % 16 = c.toNat / 16 := by
        apply Nat.mod_eq_of_lt
        omega
      have hval : 16 * (c.toNat / 16 % 16) + c.toNat % 16 = c.toNat := by
        rw [hdiv]
        exact Nat.div_add_mod c.toNat 16
      have hesc : ('%' :: hexDigitCh (c.toNat / 16 % 16) :: hexDigitCh (c.toNat % 16) :: ([] : List Char)) ++ (percentEncode l ++ t) = '%' :: hexDigitCh (c.toNat / 16 % 16) :: hexDigitCh (c.toNat % 16) :: (percentEncode l ++ t) := rfl
      rw [hesc, percentDecode_escape _ _ _ (isHexCh_hexDigitCh hhi) (isHexCh_hexDigitCh hlo),
        hexVal_hexDigitCh hhi, hexVal_hexDigitCh hlo, hval, Char.ofNat_toNat, ih hl']
      cases h : percentDecode t <;> simp [h]

/-- Characters other than the escape pass through a decode unchanged. -/
theorem percentDecode_clean_append (p s : List Char) (hp : ∀ c ∈ p, c ≠ '%') :
    percentDecode (p ++ s) = (percentDecode s).map (fun r => p ++ r) := by
  induction p with
  | nil => cases h : percentDecode s <;> simp [h]
  | cons c p ih =>
    have hc : c ≠ '%' := hp c (List.mem_cons_self c p)
    have hp' : ∀ x ∈ p, x ≠ '%' := fun x hx => hp x (List.mem_cons_of_mem c hx)
    rw [List.cons_append, percentDecode_cons_safe hc, ih hp']
    cases h : percentDecode s <;> simp [h]

/-- Removing the first occurrence of a pattern from a list that starts
with that pattern leaves the remainder. -/
theorem jsReplaceFirst_append (pat rest : List Char) :
    jsReplaceFirst pat (pat ++ rest) = rest := by
  cases pat with
  | nil =>
    cases rest with
    | nil => rfl
    | cons c r => simp [jsReplaceFirst]
  | cons p ps =>
    have hpre : (p :: ps).isPrefixOf ((p :: ps) ++ rest) = true :=
      List.isPrefixOf_iff_prefix.mpr (List.prefix_append _ _)
    rw [List.cons_append, jsReplaceFirst, ← List.cons_append, if_pos hpre,
      List.drop_left]

/-- Uploaded public URLs are never the empty string, hence always truthy
in the handlers' `newImage || existing` expressions. -/
theorem getPublicUrl_ne_empty (env : Env) (p : String) : getPublicUrl env p ≠ "" := by
  intro h
  have h2 := congrArg String.length h
  simp [getPublicUrl, bucketBaseUrl, String.length_append, BUCKET_NAME] at h2
  exact absurd h2.1.1.2 (by decide)

/-- Strings are determined by their character data. -/
theorem String_mk_data (s : String) : String.mk s.data = s := by
  cases s
  rfl

/-- Restatement of `getPublicUrl_ne_empty` for the upload adapter. -/
theorem uploadToSupabase_ne_empty (env : Env) (now : Nat) (f : UploadFile) :
    uploadToSupabase env now f ≠ "" :=
  getPublicUrl_ne_empty env (uniqueFilename now f)

/-! ## Concrete fixtures for witnesses and counterexamples -/

/-- Concrete environment. -/
def envFix : Env := ⟨"https://sb.example"⟩

/-- Concrete uploaded file whose name contains a space. -/
def fileFix : UploadFile := ⟨"pic 1.png", "image/png", "bytes"⟩

/-- Concrete admin row with the hash of "pw". -/
def adminFix : Admin := ⟨1, "admin", bcryptHashOf "pw"⟩

/-! ## C8 -/

/-- C8: the storage key is the current timestamp, a separator, and the
original filename; URL-decoding the public URL the upload returns and
stripping the bucket URL base recovers exactly that key, so the delete
removes the object the upload stored. Hypotheses: the configured base URL
contains no escape character, and the key's characters are bytes. -/
theorem upload_delete_key_roundtrip (env : Env) (now : Nat) (f : UploadFile)
    (hp : ∀ c ∈ (bucketBaseUrl env).toList, c ≠ '%')
    (hk : ∀ c ∈ (uniqueFilename now f).toList, c.toNat < 256) :
    uniqueFilename now f = toString now ++ "-" ++ f.originalname ∧
    deleteFromSupabase env (uploadToSupabase env now f) = some (uniqueFilename now f) := by
  refine ⟨rfl, ?_⟩
  have hdata : (uploadToSupabase env now f).toList
      = (bucketBaseUrl env).toList ++ percentEncode (uniqueFilename now f).toList := by
    simp [uploadToSupabase, getPublicUrl, String.toList, String.data_append]
  have henc : percentDecode (percentEncode (uniqueFilename now f).toList) =
      some ((uniqueFilename now f).toList) := by
    have h0 := percentDecode_encode_append (uniqueFilename now f).toList [] hk
    rw [List.append_nil] at h0
    rw [h0, show percentDecode ([] : List Char) = some [] from rfl]
    simp
  unfold deleteFromSupabase
  rw [hdata, percentDecode_clean_append _ _ hp, henc]
  simp only [Option.map_some']
  rw [jsReplaceFirst_append]
  exact congrArg some (String_mk_data (uniqueFilename now f))

/-- C8 witness at a concrete environment, timestamp, and filename with a
space. -/
theorem upload_delete_key_roundtrip_witness :
    uniqueFilename 1700000000000 fileFix = toString 1700000000000 ++ "-" ++ fileFix.originalname ∧
    deleteFromSupabase envFix (uploadToSupabase envFix 1700000000000 fileFix) =
      some (uniqueFilename 1700000000000 fileFix) :=
  upload_delete_key_roundtrip envFix 1700000000000 fileFix (by decide) (by decide)

/-! ## C3 -/

/-- C3 counterexample: a token whose expiry (10 s) has passed at the
current clock (20000 ms) is rejected by `jwt.verify` itself, and the
catch branch answers 403 "Invalid token" — not the "expired" response the
claim promises for passed expiries. -/
theorem expired_token_gets_invalid_response_cex :
    authenticateToken "k" (.bearer (.signed "k" ⟨1, 0, 10⟩)) 20000 20000 =
      .error ⟨403, "Invalid token"⟩ ∧
    authenticateToken "k" (.bearer (.signed "k" ⟨1, 0, 10⟩)) 20000 20000 ≠
      .error ⟨403, "Token expired, please log in again"⟩ := by
  refine ⟨rfl, fun h => ?_⟩
  simp [authenticateToken, jwtVerify] at h

/-- C3 (amended): verification sends the 403 "invalid" response on a
malformed token, a wrong signing key, and also on a token whose expiry has
passed at the verification call's clock sample (the verify call's own
expiry check throws first and the catch treats it as invalid); the
explicit expiry comparison produces the 403 "expired" response only when
the token is unexpired at the verify call's sample but its expiry
(in milliseconds) has passed at the second sample; with a single clock
instant the "expired" response is unreachable. -/
theorem token_verification_responses :
    (∀ key raw t1 t2, authenticateToken key (.bearer (.malformed raw)) t1 t2 =
      .error ⟨403, "Invalid token"⟩) ∧
    (∀ key k p t1 t2, k ≠ key → authenticateToken key (.bearer (.signed k p)) t1 t2 =
      .error ⟨403, "Invalid token"⟩) ∧
    (∀ key p t1 t2, p.exp ≤ t1 / 1000 → authenticateToken key (.bearer (.signed key p)) t1 t2 =
      .error ⟨403, "Invalid token"⟩) ∧
    (∀ key p t1 t2, t1 / 1000 < p.exp → p.exp * 1000 < t2 →
      authenticateToken key (.bearer (.signed key p)) t1 t2 =
        .error ⟨403, "Token expired, please log in again"⟩) ∧
    (∀ key p t, authenticateToken key (.bearer (.signed key p)) t t ≠
      .error ⟨403, "Token expired, please log in again"⟩) := by
  refine ⟨?_, ?_, ?_, ?_, ?_⟩
  · intro key raw t1 t2
    rfl
  · intro key k p t1 t2 hk
    simp [authenticateToken, jwtVerify, hk]
  · intro key p t1 t2 hexp
    simp [authenticateToken, jwtVerify, hexp]
  · intro key p t1 t2 h1 h2
    simp [authenticateToken, jwtVerify, Nat.not_le.mpr h1, h2]
  · intro key p t h
    by_cases hexp : p.exp ≤ t / 1000
    · simp [authenticateToken, jwtVerify, hexp] at h
    · have hlt : t / 1000 < p.exp := Nat.not_le.mp hexp
      have hnot : ¬(p.exp * 1000 < t) := by omega
      simp [authenticateToken, jwtVerify, hexp, hnot] at h

/-- C3 witness instantiating every case of the amended theorem. -/
theorem token_verification_responses_witness :
    authenticateToken "k" (.bearer (.malformed "x")) 0 0 = .error ⟨403, "Invalid token"⟩ ∧
    authenticateToken "k" (.bearer (.signed "j" ⟨1, 0, 10⟩)) 0 0 = .error ⟨403, "Invalid token"⟩ ∧
    authenticateToken "k" (.bearer (.signed "k" ⟨1, 0, 10⟩)) 30000 30000 =
      .error ⟨403, "Invalid token"⟩ ∧
    authenticateToken "k" (.bearer (.signed "k" ⟨1, 0, 10⟩)) 9000 10001 =
      .error ⟨403, "Token expired, please log in again"⟩ ∧
    authenticateToken "k" (.bearer (.signed "k" ⟨1, 0, 10⟩)) 9000 9000 ≠
      .error ⟨403, "Token expired, please log in again"⟩ :=
  ⟨token_verification_responses.1 "k" "x" 0 0,
   token_verification_responses.2.1 "k" "j" ⟨1, 0, 10⟩ 0 0 (by decide),
   token_verification_responses.2.2.1 "k" ⟨1, 0, 10⟩ 30000 30000 (by norm_num),
   token_verification_responses.2.2.2.1 "k" ⟨1, 0, 10⟩ 9000 10001 (by norm_num) (by norm_num),
   token_verification_responses.2.2.2.2 "k" ⟨1, 0, 10⟩ 9000⟩

/-! ## C6 -/

/-- C6: the login failure runs are undifferentiated — an unknown username
and a known username with a wrong password produce the same 401 response
with the same error message. -/
theorem login_failure_undifferentiated (admins : List Admin) (key : String) (nowMs : Nat)
    (u1 p1 u2 p2 : String) (a : Admin)
    (h1 : admins.find? (fun x => x.username == u1) = none)
    (h2 : admins.find? (fun x => x.username == u2) = some a)
    (h3 : bcryptCompare p2 a.password = false) :
    loginHandler admins key nowMs u1 p1 = jsonErr 401 "Invalid username or password" ∧
    loginHandler admins key nowMs u2 p2 = jsonErr 401 "Invalid username or password" ∧
    loginHandler admins key nowMs u1 p1 = loginHandler admins key nowMs u2 p2 := by
  have e1 : loginHandler admins key nowMs u1 p1 = jsonErr 401 "Invalid username or password" := by
    rw [loginHandler.eq_def, h1]
  have e2 : loginHandler admins key nowMs u2 p2 = jsonErr 401 "Invalid username or password" := by
    rw [loginHandler.eq_def, h2]
    simp [h3]
  exact ⟨e1, e2, e1.trans e2.symm⟩

/-- C6 witness: one admin row, one unknown-user run and one wrong-password
run. -/
theorem login_failure_undifferentiated_witness :
    loginHandler [adminFix] "k" 0 "ghost" "x" = jsonErr 401 "Invalid username or password" ∧
    loginHandler [adminFix] "k" 0 "admin" "wrong" = jsonErr 401 "Invalid username or password" ∧
    loginHandler [adminFix] "k" 0 "ghost" "x" = loginHandler [adminFix] "k" 0 "admin" "wrong" :=
  login_failure_undifferentiated [adminFix] "k" 0 "ghost" "x" "admin" "wrong" adminFix
    (by decide) (by decide) (by decide)

/-! ## C7 -/

/-- C7: login with correct credentials returns a token signed with the
secret that carries the administrator's identifier, issued at the current
time (seconds) and expiring exactly one hour (3600 s) after issuance;
verifying it at issuance time decodes back to that identifier. -/
theorem login_success_one_hour_token (admins : List Admin) (key : String) (nowMs : Nat)
    (u p : String) (a : Admin)
    (h1 : admins.find? (fun x => x.username == u) = some a)
    (h2 : bcryptCompare p a.password = true) :
    loginHandler admins key nowMs u p =
      jsonOk (Token.signed key ⟨a.id, nowMs / 1000, nowMs / 1000 + 3600⟩) ∧
    jwtSign key a.id nowMs = Token.signed key ⟨a.id, nowMs / 1000, nowMs / 1000 + 3600⟩ ∧
    jwtVerify key (jwtSign key a.id nowMs) nowMs = .ok ⟨a.id, nowMs / 1000, nowMs / 1000 + 3600⟩ := by
  refine ⟨?_, rfl, ?_⟩
  · rw [loginHandler.eq_def, h1]
    simp [h2, jwtSign]
  · have hne : ¬(nowMs / 1000 + 3600 ≤ nowMs / 1000) := by omega
    simp [jwtVerify, jwtSign, hne]

/-- C7 witness: concrete login with the stored password. -/
theorem login_success_one_hour_token_witness :
    loginHandler [adminFix] "k" 5000 "admin" "pw" =
      jsonOk (Token.signed "k" ⟨adminFix.id, 5, 5 + 3600⟩) ∧
    jwtSign "k" adminFix.id 5000 = Token.signed "k" ⟨adminFix.id, 5, 5 + 3600⟩ ∧
    jwtVerify "k" (jwtSign "k" adminFix.id 5000) 5000 = .ok ⟨adminFix.id, 5, 5 + 3600⟩ :=
  login_success_one_hour_token [adminFix] "k" 5000 "admin" "pw" adminFix (by decide) (by decide)

/-! ## C1 -/

/-- C1 counterexample: the visi-misi update cited by the claim does not
fetch first; on a missing id the database update throws and the rejection
is unhandled, so no response — in particular no 404 — is produced. -/
theorem visiMisi_update_missing_unhandled_cex :
    visiMisiUpdate [] 1 "v" ["m"] = .crash [] [] ∧
    (visiMisiUpdate [] 1 "v" ["m"]).statusOf ≠ some 404 := by
  exact ⟨rfl, by decide⟩

/-- C1 (amended): every update handler except visi-misi fetches the
existing row first and, when it is absent, returns 404 with the database
unchanged and no upload or blob delete performed; the visi-misi update
instead calls the database update directly, and on a missing id the thrown
error is unhandled (no response at all), likewise with no state change and
no blob calls. -/
theorem update_missing_id_behavior :
    (∀ env now db id t d p f, findUnique db News.id id = none →
      newsUpdate env now db id t d p f = .ok (jsonErr 404 "News not found") db []) ∧
    (∀ env now db id w d f, findUnique db Hero.id id = none →
      heroUpdate env now db id w d f = .ok (jsonErr 404 "Hero not found") db []) ∧
    (∀ env now db id n d f, findUnique db Extracurricular.id id = none →
      extracurricularUpdate env now db id n d f =
        .ok (jsonErr 404 "Extracurricular not found") db []) ∧
    (∀ env now db id t f, findUnique db Kalender.id id = none →
      kalenderUpdate env now db id t f = .ok (jsonErr 404 "Kalender event not found") db []) ∧
    (∀ env now db id t f, findUnique db Alumni.id id = none →
      alumniUpdate env now db id t f = .ok (jsonErr 404 "Alumni not found") db []) ∧
    (∀ env now db id t f, findUnique db Galeri.id id = none →
      galeriUpdate env now db id t f = .ok (jsonErr 404 "Galeri not found") db []) ∧
    (∀ env now db id n d f, findUnique db Sarana.id id = none →
      saranaUpdate env now db id n d f = .ok (jsonErr 404 "Sarana not found") db []) ∧
    (∀ env now db id m d hn f, findUnique db HeadmasterMessage.id id = none →
      headmasterMessageUpdate env now db id m d hn f =
        .ok (jsonErr 404 "Headmaster Message not found") db []) ∧
    (∀ env now db id p x f, findUnique db Sejarah.id id = none →
      sejarahUpdate env now db id p x f = .ok (jsonErr 404 "Sejarah not found") db []) ∧
    (∀ db id v m, findUnique db VisiMisi.id id = none →
      visiMisiUpdate db id v m = .crash db []) := by
  refine ⟨?_, ?_, ?_, ?_, ?_, ?_, ?_, ?_, ?_, ?_⟩
  · intro env now db id t d p f h
    rw [newsUpdate.eq_def, h]
  · intro env now db id w d f h
    rw [heroUpdate.eq_def, h]
  · intro env now db id n d f h
    rw [extracurricularUpdate.eq_def, h]
  · intro env now db id t f h
    rw [kalenderUpdate.eq_def, h]
  · intro env now db id t f h
    rw [alumniUpdate.eq_def, h]
  · intro env now db id t f h
    rw [galeriUpdate.eq_def, h]
  · intro env now db id n d f h
    rw [saranaUpdate.eq_def, h]
  · intro env now db id m d hn f h
    rw [headmasterMessageUpdate.eq_def, h]
  · intro env now db id p x f h
    rw [sejarahUpdate.eq_def, h]
  · intro db id v m h
    rw [visiMisiUpdate.eq_def, h]

/-- C1 witness: every update handler applied to an empty table. -/
theorem update_missing_id_behavior_witness :
    newsUpdate envFix 0 [] 1 "t" "d" "p" none = .ok (jsonErr 404 "News not found") [] [] ∧
    heroUpdate envFix 0 [] 1 "w" "d" none = .ok (jsonErr 404 "Hero not found") [] [] ∧
    extracurricularUpdate envFix 0 [] 1 "n" "d" none =
      .ok (jsonErr 404 "Extracurricular not found") [] [] ∧
    kalenderUpdate envFix 0 [] 1 "t" none = .ok (jsonErr 404 "Kalender event not found") [] [] ∧
    alumniUpdate envFix 0 [] 1 "t" none = .ok (jsonErr 404 "Alumni not found") [] [] ∧
    galeriUpdate envFix 0 [] 1 "t" none = .ok (jsonErr 404 "Galeri not found") [] [] ∧
    saranaUpdate envFix 0 [] 1 "n" "d" none = .ok (jsonErr 404 "Sarana not found") [] [] ∧
    headmasterMessageUpdate envFix 0 [] 1 "m" "d" "hn" none =
      .ok (jsonErr 404 "Headmaster Message not found") [] [] ∧
    sejarahUpdate envFix 0 [] 1 "p" "x" none = .ok (jsonErr 404 "Sejarah not found") [] [] ∧
    visiMisiUpdate [] 1 "v" ["m1"] = .crash [] [] :=
  ⟨update_missing_id_behavior.1 envFix 0 [] 1 "t" "d" "p" none rfl,
   update_missing_id_behavior.2.1 envFix 0 [] 1 "w" "d" none rfl,
   update_missing_id_behavior.2.2.1 envFix 0 [] 1 "n" "d" none rfl,
   update_missing_id_behavior.2.2.2.1 envFix 0 [] 1 "t" none rfl,
   update_missing_id_behavior.2.2.2.2.1 envFix 0 [] 1 "t" none rfl,
   update_missing_id_behavior.2.2.2.2.2.1 envFix 0 [] 1 "t" none rfl,
   update_missing_id_behavior.2.2.2.2.2.2.1 envFix 0 [] 1 "n" "d" none rfl,
   update_missing_id_behavior.2.2.2.2.2.2.2.1 envFix 0 [] 1 "m" "d" "hn" none rfl,
   update_missing_id_behavior.2.2.2.2.2.2.2.2.1 envFix 0 [] 1 "p" "x" none rfl,
   update_missing_id_behavior.2.2.2.2.2.2.2.2.2 [] 1 "v" ["m1"] rfl⟩

/-! ## C5 -/

/-- C5: every delete handler answers 404 on a missing id, leaves the
database unchanged, and performs no blob call (contacts reaches 404
through the P2025 throw of the direct delete, with the same effect). -/
theorem delete_missing_id_404_no_effects :
    (∀ env db id, findUnique db News.id id = none →
      newsDelete env db id = .ok (jsonErr 404 "News not found") db []) ∧
    (∀ env db id, findUnique db Extracurricular.id id = none →
      extracurricularDelete env db id = .ok (jsonErr 404 "Extracurricular not found") db []) ∧
    (∀ env db id, findUnique db Alumni.id id = none →
      alumniDelete env db id = .ok (jsonErr 404 "Alumni not found") db []) ∧
    (∀ env db id, findUnique db Galeri.id id = none →
      galeriDelete env db id = .ok (jsonErr 404 "Galeri not found") db []) ∧
    (∀ env db id, findUnique db Sarana.id id = none →
      saranaDelete env db id = .ok (jsonErr 404 "Sarana not found") db []) ∧
    (∀ env db id, findUnique db Sejarah.id id = none →
      sejarahDelete env db id = .ok (jsonErr 404 "Sejarah not found") db []) ∧
    (∀ db id, findUnique db Contact.id id = none →
      contactsDelete db id = .ok (jsonErr 404 "Contact not found or failed to delete") db []) := by
  refine ⟨?_, ?_, ?_, ?_, ?_, ?_, ?_⟩
  · intro env db id h
    rw [newsDelete.eq_def, h]
  · intro env db id h
    rw [extracurricularDelete.eq_def, h]
  · intro env db id h
    rw [alumniDelete.eq_def, h]
  · intro env db id h
    rw [galeriDelete.eq_def, h]
  · intro env db id h
    rw [saranaDelete.eq_def, h]
  · intro env db id h
    rw [sejarahDelete.eq_def, h]
  · intro db id h
    rw [contactsDelete.eq_def, h]

/-- C5 witness: every delete handler applied to an empty table. -/
theorem delete_missing_id_404_no_effects_witness :
    newsDelete envFix [] 1 = .ok (jsonErr 404 "News not found") [] [] ∧
    extracurricularDelete envFix [] 1 = .ok (jsonErr 404 "Extracurricular not found") [] [] ∧
    alumniDelete envFix [] 1 = .ok (jsonErr 404 "Alumni not found") [] [] ∧
    galeriDelete envFix [] 1 = .ok (jsonErr 404 "Galeri not found") [] [] ∧
    saranaDelete envFix [] 1 = .ok (jsonErr 404 "Sarana not found") [] [] ∧
    sejarahDelete envFix [] 1 = .ok (jsonErr 404 "Sejarah not found") [] [] ∧
    contactsDelete [] 1 = .ok (jsonErr 404 "Contact not found or failed to delete") [] [] :=
  ⟨delete_missing_id_404_no_effects.1 envFix [] 1 rfl,
   delete_missing_id_404_no_effects.2.1 envFix [] 1 rfl,
   delete_missing_id_404_no_effects.2.2.1 envFix [] 1 rfl,
   delete_missing_id_404_no_effects.2.2.2.1 envFix [] 1 rfl,
   delete_missing_id_404_no_effects.2.2.2.2.1 envFix [] 1 rfl,
   delete_missing_id_404_no_effects.2.2.2.2.2.1 envFix [] 1 rfl,
   delete_missing_id_404_no_effects.2.2.2.2.2.2 [] 1 rfl⟩

/-! ## C9 -/

/-- C9: every get-by-id handler answers a missing id with status 200 and a
JSON `null` body rather than a 404. -/
theorem getById_missing_returns_null :
    (∀ db id, findUnique db News.id id = none →
      newsGetById db id = ⟨200, some (.data none)⟩) ∧
    (∀ db id, findUnique db Extracurricular.id id = none →
      extracurricularGetById db id = ⟨200, some (.data none)⟩) ∧
    (∀ db id, findUnique db Alumni.id id = none →
      alumniGetById db id = ⟨200, some (.data none)⟩) ∧
    (∀ db id, findUnique db Galeri.id id = none →
      galeriGetById db id = ⟨200, some (.data none)⟩) ∧
    (∀ db id, findUnique db Sarana.id id = none →
      saranaGetById db id = ⟨200, some (.data none)⟩) := by
  refine ⟨?_, ?_, ?_, ?_, ?_⟩ <;>
    intro db id h <;>
    simp [newsGetById, extracurricularGetById, alumniGetById, galeriGetById, saranaGetById,
      jsonOk, h]

/-- C9 witness: every get-by-id handler applied to an empty table. -/
theorem getById_missing_returns_null_witness :
    newsGetById [] 1 = ⟨200, some (.data none)⟩ ∧
    extracurricularGetById [] 1 = ⟨200, some (.data none)⟩ ∧
    alumniGetById [] 1 = ⟨200, some (.data none)⟩ ∧
    galeriGetById [] 1 = ⟨200, some (.data none)⟩ ∧
    saranaGetById [] 1 = ⟨200, some (.data none)⟩ :=
  ⟨getById_missing_returns_null.1 [] 1 rfl,
   getById_missing_returns_null.2.1 [] 1 rfl,
   getById_missing_returns_null.2.2.1 [] 1 rfl,
   getById_missing_returns_null.2.2.2.1 [] 1 rfl,
   getById_missing_returns_null.2.2.2.2 [] 1 rfl⟩

/-! ## C2 -/

/-- C2 counterexample: deleting an existing sejarah slide answers 200 with
a `{message}` body, and deleting an existing contact answers 200 with the
deleted row as body — neither is an empty 204 response. -/
theorem delete_success_not_always_204_cex :
    sejarahDelete envFix [⟨1, "p", "x", none⟩] 1 =
      .ok ⟨200, some (.msg "Slide sejarah berhasil dihapus")⟩ [] [] ∧
    contactsDelete [⟨1, "n", "e", "ph", "m", ⟨"2024"⟩⟩] 1 =
      .ok ⟨200, some (.data ⟨1, "n", "e", "ph", "m", ⟨"2024"⟩⟩)⟩ [] [] :=
  ⟨rfl, rfl⟩

/-- C2 (amended): deleting an existing id returns an empty 204 response
for news, extracurriculars, alumni, galeri, and sarana; the sejarah delete
instead returns 200 with a `{message}` body and the contacts delete
returns 200 with the deleted row as body. (For rows whose media field is
set, the stored URL must be decodable, else the 500/crash path is taken.) -/
theorem delete_existing_id_responses :
    (∀ env db id ex, findUnique db News.id id = some ex →
      mediaDeletable env ex.image = true →
      newsDelete env db id = .ok noContent (deleteById db News.id id) (oldDeleteEvents ex.image)) ∧
    (∀ env db id ex, findUnique db Extracurricular.id id = some ex →
      mediaDeletable env ex.image = true →
      extracurricularDelete env db id =
        .ok noContent (deleteById db Extracurricular.id id) (oldDeleteEvents ex.image)) ∧
    (∀ env db id ex, findUnique db Alumni.id id = some ex →
      mediaDeletable env ex.image = true →
      alumniDelete env db id =
        .ok noContent (deleteById db Alumni.id id) (oldDeleteEvents ex.image)) ∧
    (∀ env db id ex, findUnique db Galeri.id id = some ex →
      strDeletable env ex.image = true →
      galeriDelete env db id =
        .ok noContent (deleteById db Galeri.id id) (strDeleteEvents ex.image)) ∧
    (∀ env db id ex, findUnique db Sarana.id id = some ex →
      mediaDeletable env ex.image = true →
      saranaDelete env db id =
        .ok noContent (deleteById db Sarana.id id) (oldDeleteEvents ex.image)) ∧
    (∀ env db id ex, findUnique db Sejarah.id id = some ex →
      mediaDeletable env ex.image = true →
      sejarahDelete env db id = .ok ⟨200, some (.msg "Slide sejarah berhasil dihapus")⟩
        (deleteById db Sejarah.id id) (oldDeleteEvents ex.image)) ∧
    (∀ db id ex, findUnique db Contact.id id = some ex →
      contactsDelete db id =
        .ok ⟨200, some (.data ex)⟩ (deleteById db Contact.id id) []) := by
  refine ⟨?_, ?_, ?_, ?_, ?_, ?_, ?_⟩
  · intro env db id ex hfind hdel
    rw [newsDelete.eq_def, hfind]
    cases himg : ex.image with
    | none => simp [himg, oldDeleteEvents]
    | some old =>
      rw [himg] at hdel
      obtain ⟨pth, hp⟩ := Option.isSome_iff_exists.mp hdel
      simp [himg, hp, oldDeleteEvents]
  · intro env db id ex hfind hdel
    rw [extracurricularDelete.eq_def, hfind]
    cases himg : ex.image with
    | none => simp [himg, oldDeleteEvents]
    | some old =>
      rw [himg] at hdel
      obtain ⟨pth, hp⟩ := Option.isSome_iff_exists.mp hdel
      simp [himg, hp, oldDeleteEvents]
  · intro env db id ex hfind hdel
    rw [alumniDelete.eq_def, hfind]
    cases himg : ex.image with
    | none => simp [himg, oldDeleteEvents]
    | some old =>
      rw [himg] at hdel
      obtain ⟨pth, hp⟩ := Option.isSome_iff_exists.mp hdel
      simp [himg, hp, oldDeleteEvents]
  · intro env db id ex hfind hdel
    rw [galeriDelete.eq_def, hfind]
    by_cases hB : ex.image = ""
    · simp [hB, strDeleteEvents]
    · have hS : (deleteFromSupabase env ex.image).isSome = true := by
        unfold strDeletable at hdel
        simpa [hB] using hdel
      obtain ⟨pth, hp⟩ := Option.isSome_iff_exists.mp hS
      simp [hB, hp, strDeleteEvents]
  · intro env db id ex hfind hdel
    rw [saranaDelete.eq_def, hfind]
    cases himg : ex.image with
    | none => simp [himg, oldDeleteEvents]
    | some old =>
      rw [himg] at hdel
      obtain ⟨pth, hp⟩ := Option.isSome_iff_exists.mp hdel
      simp [himg, hp, oldDeleteEvents]
  · intro env db id ex hfind hdel
    rw [sejarahDelete.eq_def, hfind]
    cases himg : ex.image with
    | none => simp [himg, oldDeleteEvents]
    | some old =>
      rw [himg] at hdel
      obtain ⟨pth, hp⟩ := Option.isSome_iff_exists.mp hdel
      simp [himg, hp, oldDeleteEvents]
  · intro db id ex hfind
    rw [contactsDelete.eq_def, hfind]

/-- C2 witness: one existing row per resource. -/
theorem delete_existing_id_responses_witness :
    newsDelete envFix [⟨1, "A", "B", none, ⟨"2024"⟩⟩] 1 = .ok noContent [] [] ∧
    extracurricularDelete envFix [⟨1, "n", "d", none⟩] 1 = .ok noContent [] [] ∧
    alumniDelete envFix [⟨1, "t", none⟩] 1 = .ok noContent [] [] ∧
    galeriDelete envFix [⟨1, "t", ""⟩] 1 = .ok noContent [] [] ∧
    saranaDelete envFix [⟨1, "n", "d", none⟩] 1 = .ok noContent [] [] ∧
    sejarahDelete envFix [⟨1, "p", "x", none⟩] 1 =
      .ok ⟨200, some (.msg "Slide sejarah berhasil dihapus")⟩ [] [] ∧
    contactsDelete [⟨1, "n", "e", "ph", "m", ⟨"2024"⟩⟩] 1 =
      .ok ⟨200, some (.data ⟨1, "n", "e", "ph", "m", ⟨"2024"⟩⟩)⟩ [] [] :=
  ⟨delete_existing_id_responses.1 envFix [⟨1, "A", "B", none, ⟨"2024"⟩⟩] 1
      ⟨1, "A", "B", none, ⟨"2024"⟩⟩ rfl rfl,
   delete_existing_id_responses.2.1 envFix [⟨1, "n", "d", none⟩] 1 ⟨1, "n", "d", none⟩ rfl rfl,
   delete_existing_id_responses.2.2.1 envFix [⟨1, "t", none⟩] 1 ⟨1, "t", none⟩ rfl rfl,
   delete_existing_id_responses.2.2.2.1 envFix [⟨1, "t", ""⟩] 1 ⟨1, "t", ""⟩ rfl rfl,
   delete_existing_id_responses.2.2.2.2.1 envFix [⟨1, "n", "d", none⟩] 1
      ⟨1, "n", "d", none⟩ rfl rfl,
   delete_existing_id_responses.2.2.2.2.2.1 envFix [⟨1, "p", "x", none⟩] 1
      ⟨1, "p", "x", none⟩ rfl rfl,
   delete_existing_id_responses.2.2.2.2.2.2 [⟨1, "n", "e", "ph", "m", ⟨"2024"⟩⟩] 1
      ⟨1, "n", "e", "ph", "m", ⟨"2024"⟩⟩ rfl⟩

/-! ## C10 -/

/-- C10: an update carrying no attached file leaves the stored media field
exactly equal to its prior value while overwriting the other submitted
fields, with no upload and no blob delete. -/
theorem update_without_file_preserves_media :
    (∀ env now db id t d p ex, findUnique db News.id id = some ex →
      newsUpdate env now db id t d p none = .ok (jsonOk (newsWith ex t d p ex.image))
        (updateById db News.id id (newsWith ex t d p ex.image)) []) ∧
    (∀ env now db id w d ex, findUnique db Hero.id id = some ex →
      heroUpdate env now db id w d none = .ok (jsonOk (heroWith ex w d ex.image))
        (updateById db Hero.id id (heroWith ex w d ex.image)) []) ∧
    (∀ env now db id n d ex, findUnique db Extracurricular.id id = some ex →
      extracurricularUpdate env now db id n d none =
        .ok (jsonOk (extracurricularWith ex n d ex.image))
          (updateById db Extracurricular.id id (extracurricularWith ex n d ex.image)) []) ∧
    (∀ env now db id t ex, findUnique db Kalender.id id = some ex →
      kalenderUpdate env now db id t none = .ok (jsonOk (kalenderWith ex t ex.file))
        (updateById db Kalender.id id (kalenderWith ex t ex.file)) []) ∧
    (∀ env now db id t ex, findUnique db Alumni.id id = some ex →
      alumniUpdate env now db id t none = .ok (jsonOk (alumniWith ex t ex.image))
        (updateById db Alumni.id id (alumniWith ex t ex.image)) []) ∧
    (∀ env now db id t ex, findUnique db Galeri.id id = some ex →
      galeriUpdate env now db id t none = .ok (jsonOk (galeriWith ex t ex.image))
        (updateById db Galeri.id id (galeriWith ex t ex.image)) []) ∧
    (∀ env now db id n d ex, findUnique db Sarana.id id = some ex →
      saranaUpdate env now db id n d none = .ok (jsonOk (saranaWith ex n d ex.image))
        (updateById db Sarana.id id (saranaWith ex n d ex.image)) []) ∧
    (∀ env now db id m d hn ex, findUnique db HeadmasterMessage.id id = some ex →
      headmasterMessageUpdate env now db id m d hn none =
        .ok (jsonOk (headmasterMessageWith ex m d hn ex.image))
          (updateById db HeadmasterMessage.id id (headmasterMessageWith ex m d hn ex.image)) []) ∧
    (∀ env now db id p x ex, findUnique db Sejarah.id id = some ex →
      sejarahUpdate env now db id p x none = .ok (jsonOk (sejarahWith ex p x ex.image))
        (updateById db Sejarah.id id (sejarahWith ex p x ex.image)) []) := by
  refine ⟨?_, ?_, ?_, ?_, ?_, ?_, ?_, ?_, ?_⟩
  · intro env now db id t d p ex hfind
    rw [newsUpdate.eq_def, hfind]
    simp [jsOrOpt]
  · intro env now db id w d ex hfind
    rw [heroUpdate.eq_def, hfind]
    simp [jsOrStr]
  · intro env now db id n d ex hfind
    rw [extracurricularUpdate.eq_def, hfind]
    simp [jsOrOpt]
  · intro env now db id t ex hfind
    rw [kalenderUpdate.eq_def, hfind]
  · intro env now db id t ex hfind
    rw [alumniUpdate.eq_def, hfind]
    simp [jsOrOpt]
  · intro env now db id t ex hfind
    rw [galeriUpdate.eq_def, hfind]
  · intro env now db id n d ex hfind
    rw [saranaUpdate.eq_def, hfind]
    simp [jsOrOpt]
  · intro env now db id m d hn ex hfind
    rw [headmasterMessageUpdate.eq_def, hfind]
    simp [jsOrStr]
  · intro env now db id p x ex hfind
    rw [sejarahUpdate.eq_def, hfind]

/-- C10 witness: one existing row per resource, some with media set and
some with media absent, updated without a file. -/
theorem update_without_file_preserves_media_witness :
    newsUpdate envFix 0 [⟨1, "A", "B", some "u", ⟨"2024"⟩⟩] 1 "A2" "B2" "2025" none =
      .ok (jsonOk ⟨1, "A2", "B2", some "u", ⟨"2025"⟩⟩) [⟨1, "A2", "B2", some "u", ⟨"2025"⟩⟩] [] ∧
    heroUpdate envFix 0 [⟨1, "w", "d", "u"⟩] 1 "w2" "d2" none =
      .ok (jsonOk ⟨1, "w2", "d2", "u"⟩) [⟨1, "w2", "d2", "u"⟩] [] ∧
    extracurricularUpdate envFix 0 [⟨1, "n", "d", none⟩] 1 "n2" "d2" none =
      .ok (jsonOk ⟨1, "n2", "d2", none⟩) [⟨1, "n2", "d2", none⟩] [] ∧
    kalenderUpdate envFix 0 [⟨1, "t", "u"⟩] 1 "t2" none =
      .ok (jsonOk ⟨1, "t2", "u"⟩) [⟨1, "t2", "u"⟩] [] ∧
    alumniUpdate envFix 0 [⟨1, "t", some "u"⟩] 1 "t2" none =
      .ok (jsonOk ⟨1, "t2", some "u"⟩) [⟨1, "t2", some "u"⟩] [] ∧
    galeriUpdate envFix 0 [⟨1, "t", "u"⟩] 1 "t2" none =
      .ok (jsonOk ⟨1, "t2", "u"⟩) [⟨1, "t2", "u"⟩] [] ∧
    saranaUpdate envFix 0 [⟨1, "n", "d", none⟩] 1 "n2" "d2" none =
      .ok (jsonOk ⟨1, "n2", "d2", none⟩) [⟨1, "n2", "d2", none⟩] [] ∧
    headmasterMessageUpdate envFix 0 [⟨1, "m", "d", "u", "hn"⟩] 1 "m2" "d2" "hn2" none =
      .ok (jsonOk ⟨1, "m2", "d2", "u", "hn2"⟩) [⟨1, "m2", "d2", "u", "hn2"⟩] [] ∧
    sejarahUpdate envFix 0 [⟨1, "p", "x", some "u"⟩] 1 "p2" "x2" none =
      .ok (jsonOk ⟨1, "p2", "x2", some "u"⟩) [⟨1, "p2", "x2", some "u"⟩] [] :=
  ⟨update_without_file_preserves_media.1 envFix 0 [⟨1, "A", "B", some "u", ⟨"2024"⟩⟩] 1
      "A2" "B2" "2025" ⟨1, "A", "B", some "u", ⟨"2024"⟩⟩ rfl,
   update_without_file_preserves_media.2.1 envFix 0 [⟨1, "w", "d", "u"⟩] 1 "w2" "d2"
      ⟨1, "w", "d", "u"⟩ rfl,
   update_without_file_preserves_media.2.2.1 envFix 0 [⟨1, "n", "d", none⟩] 1 "n2" "d2"
      ⟨1, "n", "d", none⟩ rfl,
   update_without_file_preserves_media.2.2.2.1 envFix 0 [⟨1, "t", "u"⟩] 1 "t2"
      ⟨1, "t", "u"⟩ rfl,
   update_without_file_preserves_media.2.2.2.2.1 envFix 0 [⟨1, "t", some "u"⟩] 1 "t2"
      ⟨1, "t", some "u"⟩ rfl,
   update_without_file_preserves_media.2.2.2.2.2.1 envFix 0 [⟨1, "t", "u"⟩] 1 "t2"
      ⟨1, "t", "u"⟩ rfl,
   update_without_file_preserves_media.2.2.2.2.2.2.1 envFix 0 [⟨1, "n", "d", none⟩] 1 "n2" "d2"
      ⟨1, "n", "d", none⟩ rfl,
   update_without_file_preserves_media.2.2.2.2.2.2.2.1 envFix 0 [⟨1, "m", "d", "u", "hn"⟩] 1
      "m2" "d2" "hn2" ⟨1, "m", "d", "u", "hn"⟩ rfl,
   update_without_file_preserves_media.2.2.2.2.2.2.2.2 envFix 0 [⟨1, "p", "x", some "u"⟩] 1
      "p2" "x2" ⟨1, "p", "x", some "u"⟩ rfl⟩

/-! ## C4 -/

/-- C4: an update carrying an attached file uploads it and stores the
returned public URL as the new media value; when the prior media value was
set (non-null, or non-empty for the non-nullable columns) exactly one blob
delete call is made for the previous URL, and none otherwise. (For set
prior values the stored URL must be decodable, else the 500/crash path is
taken.) -/
theorem update_with_file_replaces_media :
    (∀ env now db id t d p f ex, findUnique db News.id id = some ex →
      mediaDeletable env ex.image = true →
      newsUpdate env now db id t d p (some f) =
        .ok (jsonOk (newsWith ex t d p (some (uploadToSupabase env now f))))
          (updateById db News.id id (newsWith ex t d p (some (uploadToSupabase env now f))))
          (.upload (uniqueFilename now f) :: oldDeleteEvents ex.image)) ∧
    (∀ env now db id w d f ex, findUnique db Hero.id id = some ex →
      strDeletable env ex.image = true →
      heroUpdate env now db id w d (some f) =
        .ok (jsonOk (heroWith ex w d (uploadToSupabase env now f)))
          (updateById db Hero.id id (heroWith ex w d (uploadToSupabase env now f)))
          (.upload (uniqueFilename now f) :: strDeleteEvents ex.image)) ∧
    (∀ env now db id n d f ex, findUnique db Extracurricular.id id = some ex →
      mediaDeletable env ex.image = true →
      extracurricularUpdate env now db id n d (some f) =
        .ok (jsonOk (extracurricularWith ex n d (some (uploadToSupabase env now f))))
          (updateById db Extracurricular.id id
            (extracurricularWith ex n d (some (uploadToSupabase env now f))))
          (.upload (uniqueFilename now f) :: oldDeleteEvents ex.image)) ∧
    (∀ env now db id t f ex, findUnique db Kalender.id id = some ex →
      strDeletable env ex.file = true →
      kalenderUpdate env now db id t (some f) =
        .ok (jsonOk (kalenderWith ex t (uploadToSupabase env now f)))
          (updateById db Kalender.id id (kalenderWith ex t (uploadToSupabase env now f)))
          (.upload (uniqueFilename now f) :: strDeleteEvents ex.file)) ∧
    (∀ env now db id t f ex, findUnique db Alumni.id id = some ex →
      mediaDeletable env ex.image = true →
      alumniUpdate env now db id t (some f) =
        .ok (jsonOk (alumniWith ex t (some (uploadToSupabase env now f))))
          (updateById db Alumni.id id (alumniWith ex t (some (uploadToSupabase env now f))))
          (.upload (uniqueFilename now f) :: oldDeleteEvents ex.image)) ∧
    (∀ env now db id t f ex, findUnique db Galeri.id id = some ex →
      strDeletable env ex.image = true →
      galeriUpdate env now db id t (some f) =
        .ok (jsonOk (galeriWith ex t (uploadToSupabase env now f)))
          (updateById db Galeri.id id (galeriWith ex t (uploadToSupabase env now f)))
          (.upload (uniqueFilename now f) :: strDeleteEvents ex.image)) ∧
    (∀ env now db id n d f ex, findUnique db Sarana.id id = some ex →
      mediaDeletable env ex.image = true →
      saranaUpdate env now db id n d (some f) =
        .ok (jsonOk (saranaWith ex n d (some (uploadToSupabase env now f))))
          (updateById db Sarana.id id (saranaWith ex n d (some (uploadToSupabase env now f))))
          (.upload (uniqueFilename now f) :: oldDeleteEvents ex.image)) ∧
    (∀ env now db id m d hn f ex, findUnique db HeadmasterMessage.id id = some ex →
      strDeletable env ex.image = true →
      headmasterMessageUpdate env now db id m d hn (some f) =
        .ok (jsonOk (headmasterMessageWith ex m d hn (uploadToSupabase env now f)))
          (updateById db HeadmasterMessage.id id
            (headmasterMessageWith ex m d hn (uploadToSupabase env now f)))
          (.upload (uniqueFilename now f) :: strDeleteEvents ex.image)) ∧
    (∀ env now db id p x f ex, findUnique db Sejarah.id id = some ex →
      mediaDeletable env ex.image = true →
      sejarahUpdate env now db id p x (some f) =
        .ok (jsonOk (sejarahWith ex p x (some (uploadToSupabase env now f))))
          (updateById db Sejarah.id id (sejarahWith ex p x (some (uploadToSupabase env now f))))
          (.upload (uniqueFilename now f) :: oldDeleteEvents ex.image)) := by
  refine ⟨?_, ?_, ?_, ?_, ?_, ?_, ?_, ?_, ?_⟩
  · intro env now db id t d p f ex hfind hdel
    rw [newsUpdate.eq_def, hfind]
    cases himg : ex.image with
    | none => simp [himg, jsOrOpt, oldDeleteEvents, uploadToSupabase_ne_empty env now f]
    | some old =>
      rw [himg] at hdel
      obtain ⟨pth, hp⟩ := Option.isSome_iff_exists.mp hdel
      simp [himg, hp, jsOrOpt, oldDeleteEvents, uploadToSupabase_ne_empty env now f]
  · intro env now db id w d f ex hfind hdel
    rw [heroUpdate.eq_def, hfind]
    by_cases hB : ex.image = ""
    · simp [hB, jsOrStr, strDeleteEvents, uploadToSupabase_ne_empty env now f]
    · have hS : (deleteFromSupabase env ex.image).isSome = true := by
        unfold strDeletable at hdel
        simpa [hB] using hdel
      obtain ⟨pth, hp⟩ := Option.isSome_iff_exists.mp hS
      simp [hB, hp, jsOrStr, strDeleteEvents, uploadToSupabase_ne_empty env now f]
  · intro env now db id n d f ex hfind hdel
    rw [extracurricularUpdate.eq_def, hfind]
    cases himg : ex.image with
    | none => simp [himg, jsOrOpt, oldDeleteEvents, uploadToSupabase_ne_empty env now f]
    | some old =>
      rw [himg] at hdel
      obtain ⟨pth, hp⟩ := Option.isSome_iff_exists.mp hdel
      simp [himg, hp, jsOrOpt, oldDeleteEvents, uploadToSupabase_ne_empty env now f]
  · intro env now db id t f ex hfind hdel
    rw [kalenderUpdate.eq_def, hfind]
    by_cases hB : ex.file = ""
    · simp [hB, strDeleteEvents]
    · have hS : (deleteFromSupabase env ex.file).isSome = true := by
        unfold strDeletable at hdel
        simpa [hB] using hdel
      obtain ⟨pth, hp⟩ := Option.isSome_iff_exists.mp hS
      simp [hB, hp, strDeleteEvents]
  · intro env now db id t f ex hfind hdel
    rw [alumniUpdate.eq_def, hfind]
    cases himg : ex.image with
    | none => simp [himg, jsOrOpt, oldDeleteEvents, uploadToSupabase_ne_empty env now f]
    | some old =>
      rw [himg] at hdel
      obtain ⟨pth, hp⟩ := Option.isSome_iff_exists.mp hdel
      simp [himg, hp, jsOrOpt, oldDeleteEvents, uploadToSupabase_ne_empty env now f]
  · intro env now db id t f ex hfind hdel
    rw [galeriUpdate.eq_def, hfind]
    by_cases hB : ex.image = ""
    · simp [hB, strDeleteEvents]
    · have hS : (deleteFromSupabase env ex.image).isSome = true := by
        unfold strDeletable at hdel
        simpa [hB] using hdel
      obtain ⟨pth, hp⟩ := Option.isSome_iff_exists.mp hS
      simp [hB, hp, strDeleteEvents]
  · intro env now db id n d f ex hfind hdel
    rw [saranaUpdate.eq_def, hfind]
    cases himg : ex.image with
    | none => simp [himg, jsOrOpt, oldDeleteEvents, uploadToSupabase_ne_empty env now f]
    | some old =>
      rw [himg] at hdel
      obtain ⟨pth, hp⟩ := Option.isSome_iff_exists.mp hdel
      simp [himg, hp, jsOrOpt, oldDeleteEvents, uploadToSupabase_ne_empty env now f]
  · intro env now db id m d hn f ex hfind hdel
    rw [headmasterMessageUpdate.eq_def, hfind]
    by_cases hB : ex.image = ""
    · simp [hB, jsOrStr, strDeleteEvents, uploadToSupabase_ne_empty env now f]
    · have hS : (deleteFromSupabase env ex.image).isSome = true := by
        unfold strDeletable at hdel
        simpa [hB] using hdel
      obtain ⟨pth, hp⟩ := Option.isSome_iff_exists.mp hS
      simp [hB, hp, jsOrStr, strDeleteEvents, uploadToSupabase_ne_empty env now f]
  · intro env now db id p x f ex hfind hdel
    rw [sejarahUpdate.eq_def, hfind]
    cases himg : ex.image with
    | none => simp [himg, oldDeleteEvents]
    | some old =>
      rw [himg] at hdel
      obtain ⟨pth, hp⟩ := Option.isSome_iff_exists.mp hdel
      simp [himg, hp, oldDeleteEvents]

/-- C4 witness: one update per resource with an attached file, some with a
set prior media value (one delete call) and some with an absent one (no
delete call). -/
theorem update_with_file_replaces_media_witness :
    newsUpdate envFix 7 [⟨1, "A", "B", some "old", ⟨"24"⟩⟩] 1 "A2" "B2" "25" (some fileFix) =
      .ok (jsonOk ⟨1, "A2", "B2", some (uploadToSupabase envFix 7 fileFix), ⟨"25"⟩⟩)
        [⟨1, "A2", "B2", some (uploadToSupabase envFix 7 fileFix), ⟨"25"⟩⟩]
        [.upload (uniqueFilename 7 fileFix), .deleteCall "old"] ∧
    heroUpdate envFix 7 [⟨1, "w", "d", "old"⟩] 1 "w2" "d2" (some fileFix) =
      .ok (jsonOk ⟨1, "w2", "d2", uploadToSupabase envFix 7 fileFix⟩)
        [⟨1, "w2", "d2", uploadToSupabase envFix 7 fileFix⟩]
        [.upload (uniqueFilename 7 fileFix), .deleteCall "old"] ∧
    extracurricularUpdate envFix 7 [⟨1, "n", "d", none⟩] 1 "n2" "d2" (some fileFix) =
      .ok (jsonOk ⟨1, "n2", "d2", some (uploadToSupabase envFix 7 fileFix)⟩)
        [⟨1, "n2", "d2", some (uploadToSupabase envFix 7 fileFix)⟩]
        [.upload (uniqueFilename 7 fileFix)] ∧
    kalenderUpdate envFix 7 [⟨1, "t", "old"⟩] 1 "t2" (some fileFix) =
      .ok (jsonOk ⟨1, "t2", uploadToSupabase envFix 7 fileFix⟩)
        [⟨1, "t2", uploadToSupabase envFix 7 fileFix⟩]
        [.upload (uniqueFilename 7 fileFix), .deleteCall "old"] ∧
    alumniUpdate envFix 7 [⟨1, "t", none⟩] 1 "t2" (some fileFix) =
      .ok (jsonOk ⟨1, "t2", some (uploadToSupabase envFix 7 fileFix)⟩)
        [⟨1, "t2", some (uploadToSupabase envFix 7 fileFix)⟩]
        [.upload (uniqueFilename 7 fileFix)] ∧
    galeriUpdate envFix 7 [⟨1, "t", "old"⟩] 1 "t2" (some fileFix) =
      .ok (jsonOk ⟨1, "t2", uploadToSupabase envFix 7 fileFix⟩)
        [⟨1, "t2", uploadToSupabase envFix 7 fileFix⟩]
        [.upload (uniqueFilename 7 fileFix), .deleteCall "old"] ∧
    saranaUpdate envFix 7 [⟨1, "n", "d", none⟩] 1 "n2" "d2" (some fileFix) =
      .ok (jsonOk ⟨1, "n2", "d2", some (uploadToSupabase envFix 7 fileFix)⟩)
        [⟨1, "n2", "d2", some (uploadToSupabase envFix 7 fileFix)⟩]
        [.upload (uniqueFilename 7 fileFix)] ∧
    headmasterMessageUpdate envFix 7 [⟨1, "m", "d", "old", "hn"⟩] 1 "m2" "d2" "hn2"
        (some fileFix) =
      .ok (jsonOk ⟨1, "m2", "d2", uploadToSupabase envFix 7 fileFix, "hn2"⟩)
        [⟨1, "m2", "d2", uploadToSupabase envFix 7 fileFix, "hn2"⟩]
        [.upload (uniqueFilename 7 fileFix), .deleteCall "old"] ∧
    sejarahUpdate envFix 7 [⟨1, "p", "x", some "old"⟩] 1 "p2" "x2" (some fileFix) =
      .ok (jsonOk ⟨1, "p2", "x2", some (uploadToSupabase envFix 7 fileFix)⟩)
        [⟨1, "p2", "x2", some (uploadToSupabase envFix 7 fileFix)⟩]
        [.upload (uniqueFilename 7 fileFix), .deleteCall "old"] :=
  ⟨update_with_file_replaces_media.1 envFix 7 [⟨1, "A", "B", some "old", ⟨"24"⟩⟩] 1
      "A2" "B2" "25" fileFix ⟨1, "A", "B", some "old", ⟨"24"⟩⟩ rfl (by decide),
   update_with_file_replaces_media.2.1 envFix 7 [⟨1, "w", "d", "old"⟩] 1 "w2" "d2" fileFix
      ⟨1, "w", "d", "old"⟩ rfl (by decide),
   update_with_file_replaces_media.2.2.1 envFix 7 [⟨1, "n", "d", none⟩] 1 "n2" "d2" fileFix
      ⟨1, "n", "d", none⟩ rfl (by decide),
   update_with_file_replaces_media.2.2.2.1 envFix 7 [⟨1, "t", "old"⟩] 1 "t2" fileFix
      ⟨1, "t", "old"⟩ rfl (by decide),
   update_with_file_replaces_media.2.2.2.2.1 envFix 7 [⟨1, "t", none⟩] 1 "t2" fileFix
      ⟨1, "t", none⟩ rfl (by decide),
   update_with_file_replaces_media.2.2.2.2.2.1 envFix 7 [⟨1, "t", "old"⟩] 1 "t2" fileFix
      ⟨1, "t", "old"⟩ rfl (by decide),
   update_with_file_replaces_media.2.2.2.2.2.2.1 envFix 7 [⟨1, "n", "d", none⟩] 1 "n2" "d2"
      fileFix ⟨1, "n", "d", none⟩ rfl (by decide),
   update_with_file_replaces_media.2.2.2.2.2.2.2.1 envFix 7 [⟨1, "m", "d", "old", "hn"⟩] 1
      "m2" "d2" "hn2" fileFix ⟨1, "m", "d", "old", "hn"⟩ rfl (by decide),
   update_with_file_replaces_media.2.2.2.2.2.2.2.2 envFix 7 [⟨1, "p", "x", some "old"⟩] 1
      "p2" "x2" fileFix ⟨1, "p", "x", some "old"⟩ rfl (by decide)⟩
